import Mathlib

/-!
Shallow embedding of the monday.com date-sync webhook service (src/main.py).

The service is a FastAPI app with one webhook handler that dispatches on the
event type of an inbound JSON payload and issues GraphQL queries/mutations
against the remote monday.com API.  The embedding models:

  * JSON values (`Json`) together with the Python dynamic-access semantics the
    code relies on: truthiness, `dict.get`, indexing, iteration, the `in`
    operator, `or`;
  * Python exceptions (`Exn`): `fastapi.HTTPException`,
    `requests.RequestException`, and generic runtime errors
    (AttributeError / TypeError / IndexError / KeyError);
  * the remote API as a scripted oracle (`ApiEnv.script`): the n-th outbound
    HTTP POST receives the n-th scripted result; every issued call is recorded
    in an explicit call trace so that theorems can count queries and mutations;
  * each function of src/main.py as a computation in the state-exception
    monad `M` (state: the call trace; exception: `Exn`).
-/

/-- JSON values, as produced by parsing a request or response body.
Python `None` and JSON `null` are both represented by `Json.null`;
an object is a key-ordered association list, matching the insertion-ordered
`dict` that `json.loads` produces. -/
inductive Json where
  | null : Json
  | bool : Bool → Json
  | num : Int → Json
  | str : String → Json
  | arr : List Json → Json
  | obj : List (String × Json) → Json

/-- Python truthiness (`bool(x)`) of a JSON value: `None`, `False`, `0`,
the empty string, the empty list and the empty dict are falsy. -/
def Json.truthy : Json → Bool
  | .null => false
  | .bool b => b
  | .num n => n != 0
  | .str s => s != ""
  | .arr xs => !xs.isEmpty
  | .obj fs => !fs.isEmpty

/-- Python equality test of a value against a string literal
(`x == "lit"`): true exactly when the value is that very string —
in Python, comparing a non-string against a string yields `False`. -/
def Json.isStrEq (j : Json) (t : String) : Bool :=
  match j with
  | .str s => s == t
  | _ => false

/-- Pure accessor used in theorem statements: the value stored under key `k`
when `j` is an object that has it, and `Json.null` otherwise (the value
Python `dict.get(k)` yields for a missing key). -/
def jGet (j : Json) (k : String) : Json :=
  match j with
  | .obj fs => (List.lookup k fs).getD .null
  | _ => .null

/-- Pure variant of `jGet` with an explicit default, mirroring
`dict.get(k, d)` on an object (statement-level helper). -/
def jGetD (j : Json) (k : String) (d : Json) : Json :=
  match j with
  | .obj fs => (List.lookup k fs).getD d
  | _ => d

/-- Python exceptions that the code can raise or catch.  All three constructors
are subclasses of `Exception`, so a bare `except Exception` catches each. -/
inductive Exn where
  | httpExc : Nat → String → Exn     -- fastapi.HTTPException(status_code, detail)
  | requestExc : String → Exn        -- requests.RequestException
  | pyErr : String → Exn             -- AttributeError / TypeError / IndexError / KeyError
  deriving DecidableEq, Repr

/-- Python `str(e)` of an exception.  For `fastapi.HTTPException` this is
the starlette rendering `"<status_code>: <detail>"`; for the others, the
message text. -/
def exnStr : Exn → String
  | .httpExc s d => toString s ++ ": " ++ d
  | .requestExc m => m
  | .pyErr m => m

/-- Whether an `Except` result is the error case (a raised exception). -/
def exceptIsError : Except Exn α → Bool
  | .error _ => true
  | .ok _ => false

/-- Python `d.get(k)` — `None` (here `Json.null`) when the key is missing,
`AttributeError` when the receiver is not a dict. -/
def pyGet (j : Json) (k : String) : Except Exn Json :=
  match j with
  | .obj fs => .ok ((List.lookup k fs).getD .null)
  | _ => .error (.pyErr "AttributeError: object has no attribute get")

/-- Python `d.get(k, default)`. -/
def pyGetD (j : Json) (k : String) (d : Json) : Except Exn Json :=
  match j with
  | .obj fs => .ok ((List.lookup k fs).getD d)
  | _ => .error (.pyErr "AttributeError: object has no attribute get")

/-- Python `x[0]`: head of a list, first character of a string; a dict raises
`KeyError` (JSON-derived dicts have string keys only) and other values raise
`TypeError`. -/
def pyIndex0 : Json → Except Exn Json
  | .arr (x :: _) => .ok x
  | .arr [] => .error (.pyErr "IndexError: list index out of range")
  | .str s =>
    match s.data with
    | c :: _ => .ok (.str (String.singleton c))
    | [] => .error (.pyErr "IndexError: string index out of range")
  | .obj _ => .error (.pyErr "KeyError: 0")
  | _ => .error (.pyErr "TypeError: object is not subscriptable")

/-- Python iteration `for x in j`: the elements of a list, the keys of a
dict, the characters of a string; other values raise `TypeError`. -/
def pyIter : Json → Except Exn (List Json)
  | .arr xs => .ok xs
  | .obj fs => .ok (fs.map fun kv => .str kv.1)
  | .str s => .ok (s.data.map fun c => .str (String.singleton c))
  | _ => .error (.pyErr "TypeError: object is not iterable")

/-- Bool test that `needle` is a prefix of a character list. -/
def charsPrefix : List Char → List Char → Bool
  | [], _ => true
  | _ :: _, [] => false
  | a :: as, b :: bs => a == b && charsPrefix as bs

/-- Bool test that `needle` occurs as a contiguous substring. -/
def charsInfix (needle : List Char) : List Char → Bool
  | [] => needle.isEmpty
  | hay@(_ :: rest) => charsPrefix needle hay || charsInfix needle rest

/-- Python `needle in j`: key membership for a dict, element membership for a
list (equality against a string compares `False` for non-strings), substring
test for a string; other values raise `TypeError`. -/
def pyIn (needle : String) (j : Json) : Except Exn Bool :=
  match j with
  | .obj fs => .ok (fs.any fun kv => kv.1 == needle)
  | .arr xs => .ok (xs.any fun x => x.isStrEq needle)
  | .str s => .ok (charsInfix needle.data s.data)
  | _ => .error (.pyErr "TypeError: argument is not iterable")

/-- Python `a or b` on values: `a` when truthy, else `b`. -/
def pyOr (a b : Json) : Json := if a.truthy then a else b

/-- Minimal JSON string escaping (quotes and backslashes), used only to
render a response body as `response.text` inside log/detail messages. -/
def jsonEscape (s : String) : String :=
  (s.replace "\\" "\\\\").replace "\"" "\\\""

mutual

/-- Serialization of a JSON value, standing in for the raw `response.text`
of a scripted response (the code interpolates it into error details). -/
def Json.render : Json → String
  | .null => "null"
  | .bool true => "true"
  | .bool false => "false"
  | .num n => toString n
  | .str s => "\"" ++ jsonEscape s ++ "\""
  | .arr xs => "[" ++ String.intercalate ", " (Json.renderL xs) ++ "]"
  | .obj fs => "\x7b" ++ String.intercalate ", " (Json.renderF fs) ++ "\x7d"

/-- Rendered elements of a JSON array. -/
def Json.renderL : List Json → List String
  | [] => []
  | x :: xs => x.render :: Json.renderL xs

/-- Rendered fields of a JSON object. -/
def Json.renderF : List (String × Json) → List String
  | [] => []
  | (k, v) :: fs => ("\"" ++ jsonEscape k ++ "\": " ++ v.render) :: Json.renderF fs

end

/-- Rendering of a year as `strftime` `%Y` does for common-era years:
zero-padded to four digits. -/
def pad4 (n : Nat) : String :=
  let s := toString n
  if s.length ≥ 4 then s else String.mk (List.replicate (4 - s.length) '0') ++ s

example : jGet (Json.obj [("a", .num 1)]) "a" = Json.num 1 := rfl
example : (Json.str "x").truthy = true := rfl
example : charsInfix "subitem".data "create_subitem".data = true := rfl
example : pad4 2026 = "2026" := rfl

/-- The GraphQL documents (query/mutation strings) the code sends.  Each
constructor stands for one of the five fixed template strings in src/main.py;
`itemWithSubitemsQuery` carries the item id interpolated into the template
with `%s` by `process_date_automation`. -/
inductive GraphQLDoc where
  | itemWithSubitemsQuery : Json → GraphQLDoc  -- items(ids:[%s]) … column_values(ids:["date7"]) … subitems
  | changeColumnValueMutation : GraphQLDoc     -- mutation used by process_date_automation
  | getParentItemQuery : GraphQLDoc            -- query GetParentItem
  | getSubItemQuery : GraphQLDoc               -- query GetSubItem
  | updateSubitemDateMutation : GraphQLDoc     -- mutation UpdateSubitemDate

/-- Whether a document is a mutation (a write) rather than a query (a read). -/
def GraphQLDoc.isMutation : GraphQLDoc → Bool
  | .changeColumnValueMutation => true
  | .updateSubitemDateMutation => true
  | _ => false

/-- One outbound HTTP POST to the monday.com API: the document sent and the
`vars` field of the request payload (`none` models Python `None`). -/
structure ApiCall where
  doc : GraphQLDoc
  vars : Option Json

/-- The remote side of one outbound HTTP POST: either a network-level failure
(`requests.RequestException`) or an HTTP response with a status code and a
JSON body. -/
inductive ApiResult where
  | transportError : String → ApiResult
  | response : Nat → Json → ApiResult

/-- The ambient environment of a request: the configured API credential
(`MONDAY_API_KEY`, `none` when unset), the remote oracle answering the n-th
outbound call with `script n`, and the wall clock (`datetime.now()`), of
which the code uses the year and the ISO rendering. -/
structure ApiEnv where
  apiKey : Option String
  script : Nat → ApiResult
  nowYear : Nat
  nowIso : String

/-- Python truthiness of the optional credential string
(`if not MONDAY_API_KEY`). -/
def keyTruthy : Option String → Bool
  | none => false
  | some s => s != ""

/-- The effect monad of the embedding: explicit state passing of the trace of
outbound API calls, plus Python exceptions.  A raised exception keeps the
trace: calls already issued stay issued. -/
def M (α : Type) : Type := List ApiCall → Except Exn α × List ApiCall

/-- Return a pure value. -/
def M.pure (a : α) : M α := fun s => (.ok a, s)

/-- Sequencing: on an exception the continuation is skipped. -/
def M.bind (m : M α) (f : α → M β) : M β := fun s =>
  match m s with
  | (.ok a, s') => f a s'
  | (.error e, s') => (.error e, s')

instance : Monad M where
  pure := M.pure
  bind := M.bind

/-- Raise a Python exception. -/
def M.throw (e : Exn) : M α := fun s => (.error e, s)

/-- Lift a pure fallible computation. -/
def M.liftE (e : Except Exn α) : M α := fun s => (e, s)

/-- Python `try … except Exception` around a block: every exception is
handed to the handler. -/
def M.tryCatchAll (m : M α) (h : Exn → M α) : M α := fun s =>
  match m s with
  | (.ok a, s') => (.ok a, s')
  | (.error e, s') => h e s'

/-- The `requests.post` call of `execute_monday_query`: records the outbound
call in the trace and yields the scripted result for its position. -/
def apiPost (env : ApiEnv) (doc : GraphQLDoc) (vars : Option Json) : M ApiResult :=
  fun s => (.ok (env.script s.length), s ++ [⟨doc, vars⟩])

/-- The error detail built at src/main.py:78-79 when the response body has an
`errors` key: each error contributes its `message` (default
`"Unknown error"`), joined with `", "`.  Joining raises `TypeError` when a
message is not a string, and the `.get` calls raise on non-dict entries,
faithfully to the comprehension. -/
def errorsDetail (body : Json) : Except Exn String := do
  let errsVal ← pyGetD body "errors" (.arr [])
  let errs ← pyIter errsVal
  let msgs ← errs.mapM fun e => pyGetD e "message" (.str "Unknown error")
  let strs ← msgs.mapM fun m =>
    match m with
    | .str s => Except.ok s
    | _ => Except.error (.pyErr "TypeError: sequence item is not str")
  .ok ("Monday.com API returned errors: " ++ String.intercalate ", " strs)

/-- src/main.py:46-87 `execute_monday_query`: raise `HTTPException(500)` when
the credential is unset; otherwise POST the document, raise `HTTPException`
with the upstream status on a non-200 response, raise `HTTPException(400)`
when the body carries an `errors` key, and convert a transport failure
(`requests.RequestException`, caught by the inner `try`) into
`HTTPException(500)`; otherwise return the parsed response body. -/
def execute_monday_query (env : ApiEnv) (doc : GraphQLDoc) (vars : Option Json) :
    M Json :=
  if !keyTruthy env.apiKey then
    M.throw (.httpExc 500 "Monday.com API key not configured")
  else
    M.tryCatchAll
      (do
        let r ← apiPost env doc vars
        match r with
        | .transportError msg => M.throw (.requestExc msg)
        | .response status body =>
          if status ≠ 200 then
            M.throw (.httpExc status ("Error from Monday.com API: " ++ body.render))
          else do
            let hasErrs ← M.liftE (pyIn "errors" body)
            if hasErrs then do
              let d ← M.liftE (errorsDetail body)
              M.throw (.httpExc 400 d)
            else
              M.pure body)
      (fun e =>
        match e with
        | .requestExc msg =>
          M.throw (.httpExc 500 ("Request to Monday.com API failed: " ++ msg))
        | e => M.throw e)

/-- src/main.py:250-269, the per-subitem loop of `process_date_automation`:
for each subitem, read its `id`, `name` and `board.id`; skip it when the id or
the board id is falsy; otherwise issue a `change_column_value` mutation with
the subitem board id, the subitem id, column `date_mkn2am1b` and the parent
date value.  The mutation sits in its own `try/except Exception`, so a failed
update is logged and the loop continues with the next subitem. -/
def process_subitem_loop (env : ApiEnv) (date_value : Json) : List Json → M Unit
  | [] => M.pure ()
  | s :: rest => do
    let subitem_id ← M.liftE (pyGet s "id")
    let _subitem_name ← M.liftE (pyGetD s "name" (.str "Unknown"))
    let board ← M.liftE (pyGetD s "board" (.obj []))
    let subitem_board_id ← M.liftE (pyGet board "id")
    if !subitem_id.truthy || !subitem_board_id.truthy then
      process_subitem_loop env date_value rest
    else do
      M.tryCatchAll
        (do
          let _ ← execute_monday_query env .changeColumnValueMutation
            (some (.obj [("boardId", subitem_board_id), ("itemId", subitem_id),
                         ("columnId", .str "date_mkn2am1b"), ("value", date_value)]))
          M.pure ())
        (fun _ => M.pure ())
      process_subitem_loop env date_value rest

/-- src/main.py:205-269, the body of the `try` of `process_date_automation`:
fetch the parent item (name, the `date7` column, subitems); abort when the
item is missing, the date column is missing, the date value is falsy or the
literal string `"null"`, or there are no subitems; otherwise run the
per-subitem mutation loop. -/
def process_try (env : ApiEnv) (item_id : Json) : M Unit := do
  let result ← execute_monday_query env (.itemWithSubitemsQuery item_id) none
  let d ← M.liftE (pyGetD result "data" (.obj []))
  let items ← M.liftE (pyGetD d "items" (.arr []))
  if !items.truthy then M.pure () else do
  let parent ← M.liftE (pyIndex0 items)
  let _parent_name ← M.liftE (pyGetD parent "name" (.str "Unknown"))
  -- date_column = parent.get("column_values", [])[0] if parent.get("column_values") else None
  let cvCond ← M.liftE (pyGet parent "column_values")
  let date_column ←
    if cvCond.truthy then do
      let cvs ← M.liftE (pyGetD parent "column_values" (.arr []))
      M.liftE (pyIndex0 cvs)
    else M.pure Json.null
  if !date_column.truthy then M.pure () else do
  let date_value ← M.liftE (pyGet date_column "value")
  let _date_text ← M.liftE (pyGetD date_column "text" (.str ""))
  if !date_value.truthy || date_value.isStrEq "null" then M.pure () else do
  let subitems ← M.liftE (pyGetD parent "subitems" (.arr []))
  if !subitems.truthy then M.pure () else do
  let subs ← M.liftE (pyIter subitems)
  process_subitem_loop env date_value subs

/-- src/main.py:173-272 `process_date_automation`: extract the item id from
the event (`pulseId` or `pulse_id` or `itemId`); abort when falsy; then run
the fetch-and-sync body, whose exceptions are all caught by the
`except Exception` at line 271.  The extraction itself runs outside that
`try`, so an exception there propagates to the caller. -/
def process_date_automation (env : ApiEnv) (webhook_data : Json) : M Unit := do
  let event ← M.liftE (pyGetD webhook_data "event" (.obj []))
  let a ← M.liftE (pyGet event "pulseId")
  let b ← M.liftE (pyGet event "pulse_id")
  let c ← M.liftE (pyGet event "itemId")
  let item_id := pyOr (pyOr a b) c
  if !item_id.truthy then M.pure ()
  else M.tryCatchAll (process_try env item_id) (fun _ => M.pure ())

/-- Search of src/main.py:352-358 and 378-384: the first column whose key `k`
equals the string `v` (`next((col for col in cols if col.get(k) == v), None)`).
The generator evaluates `col.get(k)` lazily, so a non-dict entry before the
first match raises `AttributeError`. -/
def findByKeyVal (k : String) (v : String) : List Json → Except Exn (Option Json)
  | [] => .ok none
  | c :: rest => do
    let x ← pyGet c k
    if x.isStrEq v then .ok (some c) else findByKeyVal k v rest

/-- Python truthiness of an `Optional[dict]` variable: `None` is falsy, a
dict is truthy when nonempty. -/
def optTruthy : Option Json → Bool
  | none => false
  | some c => c.truthy

/-- src/main.py:338-443, the body of the `try` of `sync_subitem_with_parent`:
locate the parent `date7` column (falling back to the first column of type
`date`), locate the subitem `date_mkn2am1b` column (same fallback), read the
parent date value, replace a falsy or `"null"` value with the hard-coded
March 11 fallback `json.dumps({"date": "<year>-03-11"})`, and issue one
`change_column_value` mutation for the subitem (its own failures caught by
the inner `try/except` at lines 416-437). -/
def sync_subitem_try (env : ApiEnv) (subitem_id subitem_board_id : Json)
    (parent_result subitem_result : Json) : M Unit := do
  let pd ← M.liftE (pyGetD parent_result "data" (.obj []))
  let parent_items ← M.liftE (pyGetD pd "items" (.arr []))
  if !parent_items.truthy then M.pure () else do
  let parent_item ← M.liftE (pyIndex0 parent_items)
  let _parent_name ← M.liftE (pyGetD parent_item "name" (.str "Unknown"))
  let pcvs1 ← M.liftE (pyGetD parent_item "column_values" (.arr []))
  let pcols1 ← M.liftE (pyIter pcvs1)
  let byId ← M.liftE (findByKeyVal "id" "date7" pcols1)
  let parent_date_col ←
    match byId with
    | some c => M.pure (some c)
    | none => do
      let pcvs2 ← M.liftE (pyGetD parent_item "column_values" (.arr []))
      let pcols2 ← M.liftE (pyIter pcvs2)
      M.liftE (findByKeyVal "type" "date" pcols2)
  if !optTruthy parent_date_col then M.pure () else do
  match parent_date_col with
  | none => M.pure ()
  | some pcol => do
    let sd ← M.liftE (pyGetD subitem_result "data" (.obj []))
    let subitem_items ← M.liftE (pyGetD sd "items" (.arr []))
    if !subitem_items.truthy then M.pure () else do
    let subitem ← M.liftE (pyIndex0 subitem_items)
    let _subitem_name ← M.liftE (pyGetD subitem "name" (.str "Unknown"))
    let scvs1 ← M.liftE (pyGetD subitem "column_values" (.arr []))
    let scols1 ← M.liftE (pyIter scvs1)
    let sById ← M.liftE (findByKeyVal "id" "date_mkn2am1b" scols1)
    let subitem_date_col ←
      match sById with
      | some c => M.pure (some c)
      | none => do
        let scvs2 ← M.liftE (pyGetD subitem "column_values" (.arr []))
        let scols2 ← M.liftE (pyIter scvs2)
        M.liftE (findByKeyVal "type" "date" scols2)
    if !optTruthy subitem_date_col then M.pure () else do
    match subitem_date_col with
    | none => M.pure ()
    | some scol => do
      let parent_value ← M.liftE (pyGet pcol "value")
      -- Lines 396-404 only print a parsed form of the value inside a bare
      -- try/except; they have no observable effect and are not modelled.
      let parent_value :=
        if !parent_value.truthy || parent_value.isStrEq "null" then
          Json.str ("\x7b\"date\": \"" ++ pad4 env.nowYear ++ "-03-11\"\x7d")
        else parent_value
      if parent_value.truthy then
        M.tryCatchAll
          (do
            let columnId ← M.liftE (pyGet scol "id")
            let _ ← execute_monday_query env .updateSubitemDateMutation
              (some (.obj [("boardId", subitem_board_id), ("itemId", subitem_id),
                           ("columnId", columnId), ("value", parent_value)]))
            M.pure ())
          (fun _ => M.pure ())
      else M.pure ()

/-- src/main.py:282-336, the part of `sync_subitem_with_parent` that runs
before its `try` block: extract the four required ids from the event, abort
(`return`, modelled as `none`) when any is falsy, then fetch the parent item
and the subitem.  Exceptions here — including upstream failures of the two
fetch queries — are NOT caught inside `sync_subitem_with_parent`. -/
def sync_fetch_phase (env : ApiEnv) (webhook_data : Json) :
    M (Option (Json × Json × Json × Json)) := do
  let event ← M.liftE (pyGetD webhook_data "event" (.obj []))
  let i1 ← M.liftE (pyGet event "itemId")
  let i2 ← M.liftE (pyGet event "pulseId")
  let subitem_id := pyOr i1 i2
  let subitem_board_id ← M.liftE (pyGet event "boardId")
  let parent_item_id ← M.liftE (pyGet event "parentItemId")
  let parent_board_id ← M.liftE (pyGet event "parentItemBoardId")
  if !(subitem_id.truthy && subitem_board_id.truthy &&
       parent_item_id.truthy && parent_board_id.truthy) then
    M.pure none
  else do
    let parent_result ← execute_monday_query env .getParentItemQuery
      (some (.obj [("itemId", parent_item_id)]))
    let subitem_result ← execute_monday_query env .getSubItemQuery
      (some (.obj [("itemId", subitem_id)]))
    M.pure (some (subitem_id, subitem_board_id, parent_result, subitem_result))

/-- src/main.py:274-443 `sync_subitem_with_parent`: the fetch phase, then the
`try` block whose `except Exception` at line 440 catches every failure of the
extraction-and-mutation phase. -/
def sync_subitem_with_parent (env : ApiEnv) (webhook_data : Json) : M Unit := do
  let r ← sync_fetch_phase env webhook_data
  match r with
  | none => M.pure ()
  | some (subitem_id, subitem_board_id, parent_result, subitem_result) =>
    M.tryCatchAll
      (sync_subitem_try env subitem_id subitem_board_id parent_result subitem_result)
      (fun _ => M.pure ())

/-- src/main.py:111-158, the body of the outer `try` of `monday_webhook`.
`requestBody` is the parsed JSON of the request body, `none` when the body is
not valid JSON (in which case line 127 raises `HTTPException(400)` — inside
the outer `try`).  Otherwise: read `event` and `event.type`, echo the payload
when it has a `challenge` key, dispatch `create_pulse` / `update_column_value`
events to the subitem path (when `event.parentItemId` is truthy) or the
parent-update path, and answer `{"status": "success"}`.  The
`"subitem" in str(event_type).lower()` branch and the unhandled-type branch
only log, so both are no-ops here. -/
def monday_webhook_try (env : ApiEnv) (requestBody : Option Json) : M Json := do
  match requestBody with
  | none => M.throw (.httpExc 400 "Invalid JSON payload: <json parse error>")
  | some body => do
    let event ← M.liftE (pyGetD body "event" (.obj []))
    let event_type ← M.liftE (pyGet event "type")
    let hasChallenge ← M.liftE (pyIn "challenge" body)
    if hasChallenge then M.pure body
    else do
      if event_type.isStrEq "create_pulse" || event_type.isStrEq "update_column_value" then do
        let event2 ← M.liftE (pyGetD body "event" (.obj []))
        let parentItemId ← M.liftE (pyGet event2 "parentItemId")
        if parentItemId.truthy then
          sync_subitem_with_parent env body
        else
          process_date_automation env body
      else
        M.pure ()  -- logging-only branches (lines 153-156)
      M.pure (Json.obj [("status", .str "success")])

/-- One HTTP response of the endpoint: status code and JSON body. -/
structure WebResponse where
  status : Nat
  body : Json

/-- The error response built by the `except Exception` handler at
src/main.py:159-171 (the traceback text is opaque log data, modelled by a
placeholder constant). -/
def webhookErrorBody (env : ApiEnv) (e : Exn) : Json :=
  .obj [("status", .str "error"), ("error", .str (exnStr e)),
        ("traceback", .str "<traceback>"), ("timestamp", .str env.nowIso)]

/-- src/main.py:101-171 `monday_webhook`, as observed at the HTTP boundary:
the whole body runs inside `try … except Exception`, and
`fastapi.HTTPException` is a subclass of `Exception`, so every exception —
including the `HTTPException(400)` for malformed JSON — is converted into the
error dict, which FastAPI serves with the default status 200.  A normal
return is likewise served with status 200. -/
def monday_webhook (env : ApiEnv) (requestBody : Option Json)
    (s : List ApiCall) : WebResponse × List ApiCall :=
  match monday_webhook_try env requestBody s with
  | (.ok j, s') => (⟨200, j⟩, s')
  | (.error e, s') => (⟨200, webhookErrorBody env e⟩, s')

/-- src/main.py:91-99 `root_webhook`: `POST /` delegates to `monday_webhook`. -/
def root_webhook (env : ApiEnv) (requestBody : Option Json)
    (s : List ApiCall) : WebResponse × List ApiCall :=
  monday_webhook env requestBody s

/-! ## Statement-level helpers -/

/-- A webhook payload for the subitem-creation path: an
`update_column_value` event carrying the four ids the sync needs. -/
def syncEventBody (sid sbid pid pbid : Json) : Json :=
  .obj [("event", .obj [("type", .str "update_column_value"), ("itemId", sid),
                        ("boardId", sbid), ("parentItemId", pid),
                        ("parentItemBoardId", pbid)])]

/-- A webhook payload for the parent-update path: an `update_column_value`
event with an item id and no parent-item id. -/
def parentEventBody (iid : Json) : Json :=
  .obj [("event", .obj [("type", .str "update_column_value"), ("pulseId", iid)])]

/-- The response body of the parent fetch issued by
`process_date_automation`: one item with its name, its `date7` column
(`value`/`text`, as the query projects) and its subitems. -/
def parentFetchBody (pname dv dt subsJ : Json) : Json :=
  .obj [("data", .obj [("items", .arr [
    .obj [("name", pname),
          ("column_values", .arr [.obj [("value", dv), ("text", dt)]]),
          ("subitems", subsJ)]])])]

/-- The response body of a `GetParentItem` / `GetSubItem` fetch: one item
with id, name and full column list. -/
def itemFetchBody (iid pname : Json) (cols : List Json) : Json :=
  .obj [("data", .obj [("items", .arr [
    .obj [("id", iid), ("name", pname), ("column_values", .arr cols)]])])]

/-- A date column record as returned inside `column_values`. -/
def dateCol (colId : String) (v : Json) : Json :=
  .obj [("id", .str colId), ("type", .str "date"), ("value", v)]

/-- A subitem record as fetched by `process_date_automation`: an object whose
`id` and `board.id` are truthy — the shape every subitem returned by the
remote API has. -/
def wellFormedSub (s : Json) : Prop :=
  (∃ fs, s = Json.obj fs) ∧ (jGet s "id").truthy = true ∧
  (∃ bfs, jGet s "board" = Json.obj bfs) ∧ (jGet (jGet s "board") "id").truthy = true

/-- The mutation call `process_date_automation` issues for one subitem. -/
def mutCallFor (dv s : Json) : ApiCall :=
  ⟨.changeColumnValueMutation,
   some (.obj [("boardId", jGet (jGet s "board") "id"), ("itemId", jGet s "id"),
               ("columnId", .str "date_mkn2am1b"), ("value", dv)])⟩

/-- The serialized fallback date `json.dumps({"date": "<year>-03-11"})`
synthesized at src/main.py:406-413. -/
def fallbackDateJson (y : Nat) : String :=
  "\x7b\"date\": \"" ++ pad4 y ++ "-03-11\"\x7d"

/-- The parent fetch call of the subitem-creation path. -/
def parentFetchCall (pid : Json) : ApiCall :=
  ⟨.getParentItemQuery, some (.obj [("itemId", pid)])⟩

/-- The subitem fetch call of the subitem-creation path. -/
def subitemFetchCall (sid : Json) : ApiCall :=
  ⟨.getSubItemQuery, some (.obj [("itemId", sid)])⟩

/-! ## Stepping lemmas for the monad -/

theorem M.bind_eq (m : M α) (f : α → M β) : m >>= f = M.bind m f := rfl

theorem M.bind_ok {m : M α} {a : α} {s s' : List ApiCall}
    (h : m s = (.ok a, s')) (f : α → M β) : M.bind m f s = f a s' := by
  unfold M.bind; rw [h]

theorem M.bind_error {m : M α} {e : Exn} {s s' : List ApiCall}
    (h : m s = (.error e, s')) (f : α → M β) : M.bind m f s = (.error e, s') := by
  unfold M.bind; rw [h]

theorem M.liftE_apply (e : Except Exn α) (s : List ApiCall) : M.liftE e s = (e, s) := rfl

theorem M.pure_apply (a : α) (s : List ApiCall) : M.pure a s = (.ok a, s) := rfl

theorem M.throw_apply (e : Exn) (s : List ApiCall) : (M.throw e : M α) s = (.error e, s) := rfl

theorem M.tryCatchAll_ok {m : M α} {h : Exn → M α} {a : α} {s s' : List ApiCall}
    (hm : m s = (.ok a, s')) : M.tryCatchAll m h s = (.ok a, s') := by
  unfold M.tryCatchAll; rw [hm]

theorem M.tryCatchAll_error {m : M α} {h : Exn → M α} {e : Exn} {s s' : List ApiCall}
    (hm : m s = (.error e, s')) : M.tryCatchAll m h s = h e s' := by
  unfold M.tryCatchAll; rw [hm]

/-- A `try/except Exception` whose handler only logs never raises. -/
theorem M.tryCatchAll_pure_handler (m : M Unit) (s : List ApiCall) :
    ∃ s', M.tryCatchAll m (fun _ => M.pure ()) s = (.ok (), s') := by
  rcases hm : m s with ⟨r, s'⟩
  cases r with
  | ok a => exact ⟨s', M.tryCatchAll_ok hm⟩
  | error e => exact ⟨s', by rw [M.tryCatchAll_error hm]; rfl⟩

theorem apiPost_apply (env : ApiEnv) (doc : GraphQLDoc) (vars : Option Json)
    (s : List ApiCall) :
    apiPost env doc vars s = (.ok (env.script s.length), s ++ [⟨doc, vars⟩]) := rfl

/-- A successful remote call: configured key, HTTP 200, no `errors` key —
`execute_monday_query` returns the body and records exactly one call. -/
theorem execute_ok (env : ApiEnv) (doc : GraphQLDoc) (vars : Option Json)
    (calls : List ApiCall) (body : Json)
    (hk : keyTruthy env.apiKey = true)
    (hs : env.script calls.length = .response 200 body)
    (he : pyIn "errors" body = .ok false) :
    execute_monday_query env doc vars calls = (.ok body, calls ++ [⟨doc, vars⟩]) := by
  simp [execute_monday_query, M.bind_eq, M.bind, M.tryCatchAll, M.liftE, M.pure,
        M.throw, apiPost, hk, hs, he]

/-- A remote call with a non-200 response: `execute_monday_query` raises
`HTTPException` with the upstream status and records the call. -/
theorem execute_non200 (env : ApiEnv) (doc : GraphQLDoc) (vars : Option Json)
    (calls : List ApiCall) (status : Nat) (body : Json)
    (hk : keyTruthy env.apiKey = true)
    (hs : env.script calls.length = .response status body)
    (h200 : status ≠ 200) :
    execute_monday_query env doc vars calls =
      (.error (.httpExc status ("Error from Monday.com API: " ++ body.render)),
       calls ++ [⟨doc, vars⟩]) := by
  simp [execute_monday_query, M.bind_eq, M.bind, M.tryCatchAll, M.liftE, M.pure,
        M.throw, apiPost, hk, hs, h200]

/-- With a configured key, `execute_monday_query` always records exactly the
one call it issues, whatever the scripted outcome. -/
theorem execute_state (env : ApiEnv) (doc : GraphQLDoc) (vars : Option Json)
    (calls : List ApiCall) (hk : keyTruthy env.apiKey = true) :
    (execute_monday_query env doc vars calls).2 = calls ++ [⟨doc, vars⟩] := by
  rcases hs : env.script calls.length with msg | ⟨status, body⟩
  · simp [execute_monday_query, M.bind_eq, M.bind, M.tryCatchAll, M.liftE, M.pure,
          M.throw, apiPost, hk, hs]
  · by_cases h200 : status = 200
    · subst h200
      cases he : pyIn "errors" body with
      | error e =>
        simp [execute_monday_query, M.bind_eq, M.bind, M.tryCatchAll, M.liftE, M.pure,
              M.throw, apiPost, hk, hs, he]
        cases e <;> rfl
      | ok b =>
        cases b with
        | false =>
          simp [execute_monday_query, M.bind_eq, M.bind, M.tryCatchAll, M.liftE, M.pure,
                M.throw, apiPost, hk, hs, he]
        | true =>
          cases hd : errorsDetail body with
          | error e =>
            simp [execute_monday_query, M.bind_eq, M.bind, M.tryCatchAll, M.liftE, M.pure,
                  M.throw, apiPost, hk, hs, he, hd]
            cases e <;> rfl
          | ok d =>
            simp [execute_monday_query, M.bind_eq, M.bind, M.tryCatchAll, M.liftE, M.pure,
                  M.throw, apiPost, hk, hs, he, hd]
    · simp [execute_monday_query, M.bind_eq, M.bind, M.tryCatchAll, M.liftE, M.pure,
            M.throw, apiPost, hk, hs, h200]

/-- A remote call whose result is discarded, wrapped in
`try … except Exception: pass`-style handling (the per-subitem update and
the subitem-sync mutation): it always succeeds and records the call. -/
theorem exec_discard_caught (env : ApiEnv) (doc : GraphQLDoc) (vars : Option Json)
    (calls : List ApiCall) (hk : keyTruthy env.apiKey = true) :
    M.tryCatchAll (M.bind (execute_monday_query env doc vars) (fun _ => M.pure ()))
      (fun _ => M.pure ()) calls = (.ok (), calls ++ [⟨doc, vars⟩]) := by
  have h2 := execute_state env doc vars calls hk
  rcases hx : execute_monday_query env doc vars calls with ⟨r, s'⟩
  rw [hx] at h2
  subst h2
  cases r with
  | ok a =>
    have hb : M.bind (execute_monday_query env doc vars) (fun _ => M.pure ()) calls
        = (.ok (), calls ++ [⟨doc, vars⟩]) := by
      rw [M.bind_ok hx]; rfl
    rw [M.tryCatchAll_ok hb]
  | error e =>
    have hb : M.bind (execute_monday_query env doc vars) (fun _ => M.pure ()) calls
        = (.error e, calls ++ [⟨doc, vars⟩]) := M.bind_error hx _
    rw [M.tryCatchAll_error hb]; rfl

theorem pyGet_obj (fs : List (String × Json)) (k : String) :
    pyGet (Json.obj fs) k = .ok (jGet (Json.obj fs) k) := rfl

theorem pyGetD_obj (fs : List (String × Json)) (k : String) (d : Json) :
    pyGetD (Json.obj fs) k d = .ok (jGetD (Json.obj fs) k d) := rfl

/-- C9: for every subitem-creation event (an object event payload) in which
any of the four required identifiers — subitem id (`itemId` or `pulseId`),
subitem board id (`boardId`), parent item id (`parentItemId`), parent board
id (`parentItemBoardId`) — is missing or falsy, `sync_subitem_with_parent`
issues zero remote API calls (the trace is unchanged) and returns normally
without raising. -/
theorem c9_missing_ids_no_remote_calls (env : ApiEnv) (wd : Json)
    (calls : List ApiCall) (efs : List (String × Json))
    (hev : pyGetD wd "event" (.obj []) = .ok (.obj efs))
    (hids : ((pyOr (jGet (.obj efs) "itemId") (jGet (.obj efs) "pulseId")).truthy &&
             (jGet (.obj efs) "boardId").truthy &&
             (jGet (.obj efs) "parentItemId").truthy &&
             (jGet (.obj efs) "parentItemBoardId").truthy) = false) :
    sync_subitem_with_parent env wd calls = (.ok (), calls) := by
  have hC : (((pyOr (jGet (Json.obj efs) "itemId") (jGet (Json.obj efs) "pulseId")).truthy = false ∨
        (jGet (Json.obj efs) "boardId").truthy = false) ∨
        (jGet (Json.obj efs) "parentItemId").truthy = false) ∨
        (jGet (Json.obj efs) "parentItemBoardId").truthy = false := by
    simp only [Bool.and_eq_false_iff] at hids
    tauto
  simp [sync_subitem_with_parent, sync_fetch_phase, M.bind_eq, M.bind, M.liftE,
        M.pure, hev, pyGet_obj, hC]

/-- Concrete environment for the C9 witness. -/
def envC9 : ApiEnv :=
  ⟨some "key", fun _ => .response 200 (.obj []), 2026, "2026-10-12T00:00:00"⟩

/-- Concrete payload for the C9 witness: a subitem-creation event carrying
only `itemId` — board id and the two parent ids are missing. -/
def wdC9 : Json := .obj [("event", .obj [("itemId", .num 5)])]

theorem c9_missing_ids_no_remote_calls_witness :
    pyGetD wdC9 "event" (.obj []) = .ok (.obj [("itemId", .num 5)]) ∧
    ((pyOr (jGet (Json.obj [("itemId", Json.num 5)]) "itemId")
           (jGet (Json.obj [("itemId", Json.num 5)]) "pulseId")).truthy &&
     (jGet (Json.obj [("itemId", Json.num 5)]) "boardId").truthy &&
     (jGet (Json.obj [("itemId", Json.num 5)]) "parentItemId").truthy &&
     (jGet (Json.obj [("itemId", Json.num 5)]) "parentItemBoardId").truthy) = false ∧
    sync_subitem_with_parent envC9 wdC9 [] = (.ok (), []) :=
  ⟨rfl, rfl, c9_missing_ids_no_remote_calls envC9 wdC9 [] _ rfl rfl⟩

/-- A key that `List.lookup` finds is seen by `List.any` on the keys. -/
theorem lookup_key_any (k : String) (v : Json) (fs : List (String × Json))
    (h : List.lookup k fs = some v) : (fs.any fun kv => kv.1 == k) = true := by
  induction fs with
  | nil => simp [List.lookup] at h
  | cons p t ih =>
    rcases p with ⟨a, b⟩
    simp only [List.lookup] at h
    by_cases hka : k = a
    · subst hka; simp
    · have hf : (k == a) = false := beq_eq_false_iff_ne.mpr hka
      rw [hf] at h
      simp only [List.any_cons, Bool.or_eq_true]
      exact Or.inr (ih h)

/-- Shared helper: `execute_monday_query` fails whenever the HTTP-200
response body is an object containing an `errors` key, whatever its value,
because line 77 tests `"errors" in response_json`, not the truthiness of the
array.  The failed call is still recorded in the trace. -/
theorem execute_errors_key_fails (env : ApiEnv) (doc : GraphQLDoc)
    (vars : Option Json) (calls : List ApiCall) (fs : List (String × Json))
    (errv : Json)
    (hk : keyTruthy env.apiKey = true)
    (hs : env.script calls.length = .response 200 (.obj fs))
    (hlook : List.lookup "errors" fs = some errv) :
    ∃ e, execute_monday_query env doc vars calls =
      (.error e, calls ++ [⟨doc, vars⟩]) := by
  have hany := lookup_key_any "errors" errv fs hlook
  have he : pyIn "errors" (Json.obj fs) = .ok true := by simp [pyIn, hany]
  cases hd : errorsDetail (Json.obj fs) with
  | ok d =>
    exact ⟨.httpExc 400 d, by
      simp [execute_monday_query, M.bind_eq, M.bind, M.tryCatchAll, M.liftE, M.pure,
            M.throw, apiPost, hk, hs, he, hd]⟩
  | error e =>
    cases e with
    | httpExc a b =>
      exact ⟨.httpExc a b, by
        simp [execute_monday_query, M.bind_eq, M.bind, M.tryCatchAll, M.liftE, M.pure,
              M.throw, apiPost, hk, hs, he, hd]⟩
    | requestExc m =>
      exact ⟨.httpExc 500 ("Request to Monday.com API failed: " ++ m), by
        simp [execute_monday_query, M.bind_eq, M.bind, M.tryCatchAll, M.liftE, M.pure,
              M.throw, apiPost, hk, hs, he, hd]⟩
    | pyErr m =>
      exact ⟨.pyErr m, by
        simp [execute_monday_query, M.bind_eq, M.bind, M.tryCatchAll, M.liftE, M.pure,
              M.throw, apiPost, hk, hs, he, hd]⟩

/-- C10 (implicit): `execute_monday_query` fails (raises) whenever the
HTTP-200 response body is an object containing an `errors` key at all —
including an empty errors array — not only when the array is non-empty. -/
theorem c10_errors_key_always_raises (env : ApiEnv) (doc : GraphQLDoc)
    (vars : Option Json) (calls : List ApiCall) (fs : List (String × Json))
    (errv : Json)
    (hk : keyTruthy env.apiKey = true)
    (hs : env.script calls.length = .response 200 (.obj fs))
    (hlook : List.lookup "errors" fs = some errv) :
    ∃ e, execute_monday_query env doc vars calls =
      (.error e, calls ++ [⟨doc, vars⟩]) :=
  execute_errors_key_fails env doc vars calls fs errv hk hs hlook

/-- Concrete environment for the C10 witness: the scripted response has
status 200 and body `{"errors": []}` — an empty errors array. -/
def envC10 : ApiEnv :=
  ⟨some "key", fun _ => .response 200 (.obj [("errors", .arr [])]), 2026,
   "2026-10-12T00:00:00"⟩

theorem c10_errors_key_always_raises_witness :
    keyTruthy envC10.apiKey = true ∧
    envC10.script 0 = .response 200 (.obj [("errors", .arr [])]) ∧
    List.lookup "errors" [("errors", Json.arr [])] = some (Json.arr []) ∧
    ∃ e, execute_monday_query envC10 .getParentItemQuery none [] =
      (.error e, [⟨.getParentItemQuery, none⟩]) :=
  ⟨rfl, rfl, rfl,
   c10_errors_key_always_raises envC10 .getParentItemQuery none [] _ _ rfl rfl rfl⟩

theorem truthy_null : Json.null.truthy = false := rfl

theorem truthy_str (s : String) : (Json.str s).truthy = (s != "") := rfl

theorem truthy_arr (xs : List Json) : (Json.arr xs).truthy = !xs.isEmpty := rfl

theorem truthy_obj (fs : List (String × Json)) : (Json.obj fs).truthy = !fs.isEmpty := rfl

/-- C8: for an `update_column_value` event without a parent-item id (the
parent-update path), when the fetched parent date value is absent, falsy or
the literal string `"null"`, `process_date_automation` issues zero mutation
calls: the only recorded call is the initial fetch query, and the function
returns normally. -/
theorem c8_null_date_no_mutations (env : ApiEnv) (iid pname dv dt subsJ : Json)
    (calls : List ApiCall)
    (hk : keyTruthy env.apiKey = true)
    (hiid : iid.truthy = true)
    (hs : env.script calls.length = .response 200 (parentFetchBody pname dv dt subsJ))
    (hdv : dv.truthy = false ∨ dv.isStrEq "null" = true) :
    process_date_automation env (parentEventBody iid) calls =
      (.ok (), calls ++ [⟨.itemWithSubitemsQuery iid, none⟩]) := by
  have hin : pyIn "errors" (parentFetchBody pname dv dt subsJ) = .ok false := rfl
  have hex := execute_ok env (.itemWithSubitemsQuery iid) none calls
    (parentFetchBody pname dv dt subsJ) hk hs hin
  simp [process_date_automation, process_try, parentEventBody, parentFetchBody,
        M.bind_eq, M.bind, M.liftE, M.pure, M.tryCatchAll, pyOr, pyGet, pyGetD,
        pyIndex0, jGet, List.lookup, Option.getD, truthy_obj, truthy_arr,
        truthy_null, truthy_str, hiid, hdv, hex]

/-- Concrete environment for the C8 witness: the fetched parent has a null
date value and one perfectly well-formed subitem. -/
def envC8 : ApiEnv :=
  ⟨some "key",
   fun _ => .response 200 (parentFetchBody (.str "Parent") Json.null (.str "")
     (.arr [.obj [("id", .num 11), ("name", .str "Sub"),
                  ("board", .obj [("id", .num 77)])]])),
   2026, "2026-10-12T00:00:00"⟩

theorem c8_null_date_no_mutations_witness :
    keyTruthy envC8.apiKey = true ∧
    (Json.num 1).truthy = true ∧
    envC8.script 0 = .response 200 (parentFetchBody (.str "Parent") Json.null (.str "")
      (.arr [.obj [("id", .num 11), ("name", .str "Sub"),
                   ("board", .obj [("id", .num 77)])]])) ∧
    Json.null.truthy = false ∧
    process_date_automation envC8 (parentEventBody (.num 1)) [] =
      (.ok (), [⟨.itemWithSubitemsQuery (.num 1), none⟩]) :=
  ⟨rfl, rfl, rfl, rfl,
   c8_null_date_no_mutations envC8 (.num 1) (.str "Parent") Json.null (.str "")
     (.arr [.obj [("id", .num 11), ("name", .str "Sub"),
                  ("board", .obj [("id", .num 77)])]]) [] rfl rfl rfl (Or.inl rfl)⟩

/-- When `jGet` returns an object, the key is present with that object. -/
theorem jGet_eq_obj {fs : List (String × Json)} {k : String} {bfs : List (String × Json)}
    (h : jGet (Json.obj fs) k = Json.obj bfs) :
    List.lookup k fs = some (Json.obj bfs) := by
  simp only [jGet] at h
  cases hl : List.lookup k fs with
  | none => rw [hl] at h; exact absurd h (by simp)
  | some v => rw [hl] at h; simp only [Option.getD_some] at h; rw [h]

/-- The per-subitem loop of `process_date_automation` on well-formed subitems:
it issues exactly one `change_column_value` mutation per subitem, in order,
each with the subitem board id, the subitem id, column `date_mkn2am1b` and
the parent date value, and returns normally. -/
theorem process_loop_wf (env : ApiEnv) (dv : Json) (subs : List Json)
    (hk : keyTruthy env.apiKey = true)
    (hsubs : ∀ s ∈ subs, wellFormedSub s) :
    ∀ calls, process_subitem_loop env dv subs calls =
      (.ok (), calls ++ subs.map (mutCallFor dv)) := by
  induction subs with
  | nil => intro calls; simp [process_subitem_loop, M.pure]
  | cons s rest ih =>
    intro calls
    obtain ⟨⟨fs, hfs⟩, hid, ⟨bfs, hb⟩, hbid⟩ := hsubs s (List.mem_cons_self s rest)
    have hrest : ∀ x ∈ rest, wellFormedSub x := fun x hx => hsubs x (List.mem_cons_of_mem s hx)
    have ih' := ih hrest
    subst hfs
    have hlb : List.lookup "board" fs = some (Json.obj bfs) := jGet_eq_obj hb
    rw [hb] at hbid
    have hdisc := exec_discard_caught env .changeColumnValueMutation
      (some (.obj [("boardId", jGet (Json.obj bfs) "id"), ("itemId", jGet (Json.obj fs) "id"),
                   ("columnId", .str "date_mkn2am1b"), ("value", dv)])) calls hk
    simp [process_subitem_loop, M.bind_eq, M.bind, M.liftE, M.pure, pyGet_obj,
          pyGetD_obj, jGetD, hlb, hid, hbid, hb, hdisc, ih', mutCallFor]

/-- C1: for an `update_column_value` event without a parent-item id (the
parent-update path), when the fetched parent item has a truthy, non-"null"
date value in its `date7` column and a list of subitems, exactly one
`change_column_value` mutation is issued per subitem, in order, each using
that subitem's own board id as `boardId` and the parent's raw date value as
`value` (column `date_mkn2am1b`); the trace is exactly the fetch query
followed by those N mutations, and the function returns normally. -/
theorem c1_parent_update_syncs_each_subitem (env : ApiEnv) (iid pname dv dt : Json)
    (subs : List Json) (calls : List ApiCall)
    (hk : keyTruthy env.apiKey = true)
    (hiid : iid.truthy = true)
    (hs : env.script calls.length = .response 200 (parentFetchBody pname dv dt (.arr subs)))
    (hdvT : dv.truthy = true)
    (hdvN : dv.isStrEq "null" = false)
    (hsubs : ∀ s ∈ subs, wellFormedSub s) :
    process_date_automation env (parentEventBody iid) calls =
      (.ok (), calls ++ ⟨.itemWithSubitemsQuery iid, none⟩ :: subs.map (mutCallFor dv)) := by
  have hin : pyIn "errors" (parentFetchBody pname dv dt (.arr subs)) = .ok false := rfl
  have hex := execute_ok env (.itemWithSubitemsQuery iid) none calls
    (parentFetchBody pname dv dt (.arr subs)) hk hs hin
  cases subs with
  | nil =>
    simp [process_date_automation, process_try, parentEventBody, parentFetchBody,
          M.bind_eq, M.bind, M.liftE, M.pure, M.tryCatchAll, pyOr, pyGet, pyGetD,
          pyIndex0, jGet, List.lookup, Option.getD, truthy_obj, truthy_arr,
          truthy_null, truthy_str, hiid, hdvT, hdvN, hex]
  | cons s rest =>
    have hloop := process_loop_wf env dv (s :: rest) hk hsubs
    simp [process_date_automation, process_try, parentEventBody, parentFetchBody,
          M.bind_eq, M.bind, M.liftE, M.pure, M.tryCatchAll, pyOr, pyGet, pyGetD,
          pyIndex0, pyIter, jGet, List.lookup, Option.getD, truthy_obj, truthy_arr,
          truthy_null, truthy_str, hiid, hdvT, hdvN, hex, hloop]

/-- Concrete subitems, date value and environment for the C1 witness. -/
def sub1C1 : Json :=
  .obj [("id", .num 11), ("name", .str "Sub one"), ("board", .obj [("id", .num 71)])]

def sub2C1 : Json :=
  .obj [("id", .num 12), ("name", .str "Sub two"), ("board", .obj [("id", .num 72)])]

def dvC1 : Json := .str "\x7b\"date\":\"2024-05-01\"\x7d"

def envC1 : ApiEnv :=
  ⟨some "key",
   fun n => if n = 0
     then .response 200 (parentFetchBody (.str "Parent") dvC1 (.str "2024-05-01")
       (.arr [sub1C1, sub2C1]))
     else .response 200 (.obj [("data", .obj [("change_column_value",
       .obj [("id", .num 11)])])]),
   2026, "2026-10-12T00:00:00"⟩

theorem c1_parent_update_syncs_each_subitem_witness :
    keyTruthy envC1.apiKey = true ∧
    (Json.num 7).truthy = true ∧
    envC1.script 0 = .response 200 (parentFetchBody (.str "Parent") dvC1
      (.str "2024-05-01") (.arr [sub1C1, sub2C1])) ∧
    dvC1.truthy = true ∧
    dvC1.isStrEq "null" = false ∧
    wellFormedSub sub1C1 ∧
    wellFormedSub sub2C1 ∧
    process_date_automation envC1 (parentEventBody (.num 7)) [] =
      (.ok (), [⟨.itemWithSubitemsQuery (.num 7), none⟩,
                mutCallFor dvC1 sub1C1, mutCallFor dvC1 sub2C1]) := by
  have w1 : wellFormedSub sub1C1 := ⟨⟨_, rfl⟩, rfl, ⟨_, rfl⟩, rfl⟩
  have w2 : wellFormedSub sub2C1 := ⟨⟨_, rfl⟩, rfl, ⟨_, rfl⟩, rfl⟩
  refine ⟨rfl, rfl, rfl, rfl, rfl, w1, w2, ?_⟩
  exact c1_parent_update_syncs_each_subitem envC1 (.num 7) (.str "Parent") dvC1
    (.str "2024-05-01") [sub1C1, sub2C1] [] rfl rfl rfl rfl rfl
    (by
      intro s hs
      cases hs with
      | head => exact w1
      | tail _ hs2 =>
        cases hs2 with
        | head => exact w2
        | tail _ hs3 => cases hs3)

theorem M.bind_liftE_ok (v : α) (k : α → M β) : M.bind (M.liftE (.ok v)) k = k v := by
  funext s; rfl

theorem except_bind_ok (a : α) (f : α → Except Exn β) : (Except.ok a >>= f) = f a := rfl

theorem isStrEq_str (s t : String) : (Json.str s).isStrEq t = (s == t) := rfl

theorem isStrEq_num (n : Int) (t : String) : (Json.num n).isStrEq t = false := rfl

theorem isStrEq_null (t : String) : Json.null.isStrEq t = false := rfl

/-- The synthesized fallback value is a nonempty string, hence truthy. -/
theorem fallback_truthy (y : Nat) : (Json.str (fallbackDateJson y)).truthy = true := by
  simp only [truthy_str, bne_iff_ne, ne_eq, fallbackDateJson]
  intro h
  have hd := congrArg String.data h
  simp [String.data_append] at hd

/-- Evaluation of the subitem-creation sync when both fetches answer with a
single item whose column list holds exactly the expected date column: the
trace is the parent fetch, the subitem fetch, and one mutation whose value is
the raw parent value — or the March-11 fallback when that value is falsy or
the string `"null"`. -/
theorem sync_scaffold (env : ApiEnv) (sid sbid pid pbid pv sv i1 i2 pn sn : Json)
    (hk : keyTruthy env.apiKey = true)
    (hsid : sid.truthy = true) (hsbid : sbid.truthy = true)
    (hpid : pid.truthy = true) (hpbid : pbid.truthy = true)
    (hs0 : env.script 0 = .response 200 (itemFetchBody i1 pn [dateCol "date7" pv]))
    (hs1 : env.script 1 = .response 200 (itemFetchBody i2 sn [dateCol "date_mkn2am1b" sv])) :
    sync_subitem_with_parent env (syncEventBody sid sbid pid pbid) [] =
      (.ok (), [parentFetchCall pid, subitemFetchCall sid,
        ⟨.updateSubitemDateMutation,
         some (.obj [("boardId", sbid), ("itemId", sid),
                     ("columnId", .str "date_mkn2am1b"),
                     ("value", if pv.truthy = false ∨ pv.isStrEq "null" = true
                               then .str (fallbackDateJson env.nowYear) else pv)])⟩]) := by
  have hin1 : pyIn "errors" (itemFetchBody i1 pn [dateCol "date7" pv]) = .ok false := rfl
  have hin2 : pyIn "errors" (itemFetchBody i2 sn [dateCol "date_mkn2am1b" sv]) = .ok false := rfl
  have hex1 := execute_ok env .getParentItemQuery (some (.obj [("itemId", pid)])) []
    (itemFetchBody i1 pn [dateCol "date7" pv]) hk hs0 hin1
  have hex2 := execute_ok env .getSubItemQuery (some (.obj [("itemId", sid)]))
    [⟨.getParentItemQuery, some (.obj [("itemId", pid)])⟩]
    (itemFetchBody i2 sn [dateCol "date_mkn2am1b" sv]) hk hs1 hin2
  by_cases hpv : pv.truthy = false ∨ pv.isStrEq "null" = true
  · have hne : ("\x7b\"date\": \"" ++ pad4 env.nowYear ++ "-03-11\"\x7d" : String) ≠ "" := by
      intro h
      have hd := congrArg String.data h
      simp [String.data_append] at hd
    rcases hx : execute_monday_query env .updateSubitemDateMutation
        (some (.obj [("boardId", sbid), ("itemId", sid),
                     ("columnId", .str "date_mkn2am1b"),
                     ("value", .str ("\x7b\"date\": \"" ++ pad4 env.nowYear ++ "-03-11\"\x7d"))]))
        [⟨.getParentItemQuery, some (.obj [("itemId", pid)])⟩,
         ⟨.getSubItemQuery, some (.obj [("itemId", sid)])⟩] with ⟨r, s2⟩
    have h2 := execute_state env .updateSubitemDateMutation
      (some (.obj [("boardId", sbid), ("itemId", sid),
                   ("columnId", .str "date_mkn2am1b"),
                   ("value", .str ("\x7b\"date\": \"" ++ pad4 env.nowYear ++ "-03-11\"\x7d"))]))
      [⟨.getParentItemQuery, some (.obj [("itemId", pid)])⟩,
       ⟨.getSubItemQuery, some (.obj [("itemId", sid)])⟩] hk
    rw [hx] at h2
    subst h2
    cases r <;>
      simp [sync_subitem_with_parent, sync_fetch_phase, sync_subitem_try, syncEventBody,
            itemFetchBody, dateCol, parentFetchCall, subitemFetchCall, findByKeyVal,
            optTruthy, M.bind_eq, M.bind, M.liftE, M.pure, M.tryCatchAll, M.bind_liftE_ok,
            pyOr, pyGet, pyGetD, pyIndex0, pyIter, jGet, List.lookup, Option.getD,
            truthy_obj, truthy_arr, truthy_null, truthy_str, fallbackDateJson,
            except_bind_ok, isStrEq_str,
            hsid, hsbid, hpid, hpbid, hex1, hex2, hpv, hne, hx]
  · have hT : pv.truthy = true := by
      rcases Bool.eq_false_or_eq_true pv.truthy with h | h
      · exact h
      · exact absurd (Or.inl h) hpv
    have hN : pv.isStrEq "null" = false := by
      rcases Bool.eq_false_or_eq_true (pv.isStrEq "null") with h | h
      · exact absurd (Or.inr h) hpv
      · exact h
    rcases hx : execute_monday_query env .updateSubitemDateMutation
        (some (.obj [("boardId", sbid), ("itemId", sid),
                     ("columnId", .str "date_mkn2am1b"), ("value", pv)]))
        [⟨.getParentItemQuery, some (.obj [("itemId", pid)])⟩,
         ⟨.getSubItemQuery, some (.obj [("itemId", sid)])⟩] with ⟨r, s2⟩
    have h2 := execute_state env .updateSubitemDateMutation
      (some (.obj [("boardId", sbid), ("itemId", sid),
                   ("columnId", .str "date_mkn2am1b"), ("value", pv)]))
      [⟨.getParentItemQuery, some (.obj [("itemId", pid)])⟩,
       ⟨.getSubItemQuery, some (.obj [("itemId", sid)])⟩] hk
    rw [hx] at h2
    subst h2
    cases r <;>
      simp [sync_subitem_with_parent, sync_fetch_phase, sync_subitem_try, syncEventBody,
            itemFetchBody, dateCol, parentFetchCall, subitemFetchCall, findByKeyVal,
            optTruthy, M.bind_eq, M.bind, M.liftE, M.pure, M.tryCatchAll, M.bind_liftE_ok,
            pyOr, pyGet, pyGetD, pyIndex0, pyIter, jGet, List.lookup, Option.getD,
            truthy_obj, truthy_arr, truthy_null, truthy_str,
            except_bind_ok, isStrEq_str,
            hsid, hsbid, hpid, hpbid, hex1, hex2, hT, hN, hx]

/-- C6: on the subitem-creation path, when the parent date column (`date7`)
is located but its value is falsy or the literal string `"null"`, the
mutation issued for the subitem carries the synthesized fallback value
`json.dumps({"date": "<current year>-03-11"})` — March 11 of the current
year — as its `value`. -/
theorem c6_null_parent_date_fallback (env : ApiEnv)
    (sid sbid pid pbid pv sv i1 i2 pn sn : Json)
    (hk : keyTruthy env.apiKey = true)
    (hsid : sid.truthy = true) (hsbid : sbid.truthy = true)
    (hpid : pid.truthy = true) (hpbid : pbid.truthy = true)
    (hs0 : env.script 0 = .response 200 (itemFetchBody i1 pn [dateCol "date7" pv]))
    (hs1 : env.script 1 = .response 200 (itemFetchBody i2 sn [dateCol "date_mkn2am1b" sv]))
    (hpv : pv.truthy = false ∨ pv.isStrEq "null" = true) :
    sync_subitem_with_parent env (syncEventBody sid sbid pid pbid) [] =
      (.ok (), [parentFetchCall pid, subitemFetchCall sid,
        ⟨.updateSubitemDateMutation,
         some (.obj [("boardId", sbid), ("itemId", sid),
                     ("columnId", .str "date_mkn2am1b"),
                     ("value", .str (fallbackDateJson env.nowYear))])⟩]) := by
  have h := sync_scaffold env sid sbid pid pbid pv sv i1 i2 pn sn
    hk hsid hsbid hpid hpbid hs0 hs1
  simpa [hpv] using h

/-- C7: round-trip on the subitem-creation path — when the parent date value
is truthy and not the literal string `"null"`, the mutation issued for the
subitem carries exactly that raw value, unchanged. -/
theorem c7_roundtrip_raw_value (env : ApiEnv)
    (sid sbid pid pbid pv sv i1 i2 pn sn : Json)
    (hk : keyTruthy env.apiKey = true)
    (hsid : sid.truthy = true) (hsbid : sbid.truthy = true)
    (hpid : pid.truthy = true) (hpbid : pbid.truthy = true)
    (hs0 : env.script 0 = .response 200 (itemFetchBody i1 pn [dateCol "date7" pv]))
    (hs1 : env.script 1 = .response 200 (itemFetchBody i2 sn [dateCol "date_mkn2am1b" sv]))
    (hpvT : pv.truthy = true) (hpvN : pv.isStrEq "null" = false) :
    sync_subitem_with_parent env (syncEventBody sid sbid pid pbid) [] =
      (.ok (), [parentFetchCall pid, subitemFetchCall sid,
        ⟨.updateSubitemDateMutation,
         some (.obj [("boardId", sbid), ("itemId", sid),
                     ("columnId", .str "date_mkn2am1b"),
                     ("value", pv)])⟩]) := by
  have h := sync_scaffold env sid sbid pid pbid pv sv i1 i2 pn sn
    hk hsid hsbid hpid hpbid hs0 hs1
  simpa [hpvT, hpvN] using h

/-- Concrete environment for the C6 witness: parent date value is `null`. -/
def envC6 : ApiEnv :=
  ⟨some "key",
   fun n =>
     if n = 0 then .response 200 (itemFetchBody (.num 1) (.str "Parent")
       [dateCol "date7" Json.null])
     else if n = 1 then .response 200 (itemFetchBody (.num 2) (.str "Sub")
       [dateCol "date_mkn2am1b" Json.null])
     else .response 200 (.obj [("data", .obj [])]),
   2026, "2026-10-12T00:00:00"⟩

theorem c6_null_parent_date_fallback_witness :
    keyTruthy envC6.apiKey = true ∧
    (Json.num 2).truthy = true ∧ (Json.num 3).truthy = true ∧
    (Json.num 1).truthy = true ∧ (Json.num 4).truthy = true ∧
    envC6.script 0 = .response 200 (itemFetchBody (.num 1) (.str "Parent")
      [dateCol "date7" Json.null]) ∧
    envC6.script 1 = .response 200 (itemFetchBody (.num 2) (.str "Sub")
      [dateCol "date_mkn2am1b" Json.null]) ∧
    Json.null.truthy = false ∧
    fallbackDateJson envC6.nowYear = "\x7b\"date\": \"2026-03-11\"\x7d" ∧
    sync_subitem_with_parent envC6 (syncEventBody (.num 2) (.num 3) (.num 1) (.num 4)) [] =
      (.ok (), [parentFetchCall (.num 1), subitemFetchCall (.num 2),
        ⟨.updateSubitemDateMutation,
         some (.obj [("boardId", .num 3), ("itemId", .num 2),
                     ("columnId", .str "date_mkn2am1b"),
                     ("value", .str (fallbackDateJson envC6.nowYear))])⟩]) :=
  ⟨rfl, rfl, rfl, rfl, rfl, rfl, rfl, rfl, rfl,
   c6_null_parent_date_fallback envC6 (.num 2) (.num 3) (.num 1) (.num 4)
     Json.null Json.null (.num 1) (.num 2) (.str "Parent") (.str "Sub")
     rfl rfl rfl rfl rfl rfl rfl (Or.inl rfl)⟩

/-- Concrete environment for the C7 witness: parent date value is the raw
string `{"date":"2024-05-01"}`. -/
def pvC7 : Json := .str "\x7b\"date\":\"2024-05-01\"\x7d"

def envC7 : ApiEnv :=
  ⟨some "key",
   fun n =>
     if n = 0 then .response 200 (itemFetchBody (.num 1) (.str "Parent")
       [dateCol "date7" pvC7])
     else if n = 1 then .response 200 (itemFetchBody (.num 2) (.str "Sub")
       [dateCol "date_mkn2am1b" Json.null])
     else .response 200 (.obj [("data", .obj [])]),
   2026, "2026-10-12T00:00:00"⟩

theorem c7_roundtrip_raw_value_witness :
    keyTruthy envC7.apiKey = true ∧
    (Json.num 2).truthy = true ∧ (Json.num 3).truthy = true ∧
    (Json.num 1).truthy = true ∧ (Json.num 4).truthy = true ∧
    envC7.script 0 = .response 200 (itemFetchBody (.num 1) (.str "Parent")
      [dateCol "date7" pvC7]) ∧
    envC7.script 1 = .response 200 (itemFetchBody (.num 2) (.str "Sub")
      [dateCol "date_mkn2am1b" Json.null]) ∧
    pvC7.truthy = true ∧ pvC7.isStrEq "null" = false ∧
    sync_subitem_with_parent envC7 (syncEventBody (.num 2) (.num 3) (.num 1) (.num 4)) [] =
      (.ok (), [parentFetchCall (.num 1), subitemFetchCall (.num 2),
        ⟨.updateSubitemDateMutation,
         some (.obj [("boardId", .num 3), ("itemId", .num 2),
                     ("columnId", .str "date_mkn2am1b"),
                     ("value", pvC7)])⟩]) :=
  ⟨rfl, rfl, rfl, rfl, rfl, rfl, rfl, rfl, rfl,
   c7_roundtrip_raw_value envC7 (.num 2) (.num 3) (.num 1) (.num 4)
     pvC7 Json.null (.num 1) (.num 2) (.str "Parent") (.str "Sub")
     rfl rfl rfl rfl rfl rfl rfl rfl rfl⟩

/-- Concrete environment for the C2 counterexample. -/
def envC2 : ApiEnv :=
  ⟨some "key", fun _ => .response 200 (.obj []), 2026, "2026-10-12T00:00:00"⟩

/-- A payload containing `challenge` whose `event` value is a number: the
handler evaluates `body.get("event", {}).get("type")` before the challenge
check, so the attribute access on the number raises and the catch-all
answers with the error dict instead of echoing the payload. -/
def bodyC2 : Json := .obj [("challenge", .str "abc"), ("event", .num 7)]

/-- C2 counterexample: for the payload `{"challenge": "abc", "event": 7}` —
which contains the key `challenge` — the response body is NOT the input
payload; it is the catch-all error dict.  This refutes the claim as stated
(quantified over every payload containing `challenge`). -/
theorem c2_challenge_echo_counterexample :
    (monday_webhook envC2 (some bodyC2) []).1.body ≠ bodyC2 ∧
    jGet (monday_webhook envC2 (some bodyC2) []).1.body "status" = Json.str "error" := by
  constructor
  · intro h
    rw [show (monday_webhook envC2 (some bodyC2) []).1.body =
          webhookErrorBody envC2 (.pyErr "AttributeError: object has no attribute get")
        from rfl] at h
    simp [webhookErrorBody, bodyC2] at h
  · rfl

/-- C2 (amended): for every JSON-object payload containing the key
`challenge` whose `event` entry, when present, is itself an object, the
webhook response is HTTP 200 with exactly the input payload as body, and no
remote call is issued. -/
theorem c2_amended_challenge_echo (env : ApiEnv) (fs : List (String × Json))
    (calls : List ApiCall)
    (hch : (fs.any fun kv => kv.1 == "challenge") = true)
    (hev : ∀ v, List.lookup "event" fs = some v → ∃ efs, v = Json.obj efs) :
    monday_webhook env (some (.obj fs)) calls = (⟨200, .obj fs⟩, calls) := by
  cases hl : List.lookup "event" fs with
  | none =>
    simp [monday_webhook, monday_webhook_try, M.bind_eq, M.bind, M.liftE, M.pure,
          pyGetD, pyGet, pyIn, Option.getD, hl, hch]
  | some v =>
    obtain ⟨efs, hv⟩ := hev v hl
    subst hv
    simp [monday_webhook, monday_webhook_try, M.bind_eq, M.bind, M.liftE, M.pure,
          pyGetD, pyGet, pyIn, Option.getD, hl, hch]

/-- Concrete payload for the C2-amended witness. -/
def bodyC2W : Json := .obj [("challenge", .str "xyz")]

theorem c2_amended_challenge_echo_witness :
    ([("challenge", Json.str "xyz")].any fun kv => kv.1 == "challenge") = true ∧
    monday_webhook envC2 (some bodyC2W) [] = (⟨200, bodyC2W⟩, []) :=
  ⟨rfl,
   c2_amended_challenge_echo envC2 [("challenge", .str "xyz")] [] rfl
     (fun v hv => by simp [List.lookup] at hv)⟩

/-- Concrete environment for the C3 counterexample and witness: the first
remote call is answered with HTTP 500, later ones with HTTP 200 and a
non-empty `errors` array. -/
def envC3 : ApiEnv :=
  ⟨some "key",
   fun n =>
     if n = 0 then .response 500 (.str "boom")
     else .response 200 (.obj [("errors",
       .arr [.obj [("message", .str "bad query")]])]),
   2026, "2026-10-12T00:00:00"⟩

/-- C3 counterexample: an `update_column_value` event without a parent-item
id whose fetch gets HTTP 500.  `execute_monday_query` raises, but the
exception is caught inside `process_date_automation` (line 271), not by the
webhook handler, and the webhook response is the SUCCESS body — not an error
response — refuting the claim as stated. -/
theorem c3_counterexample_success_despite_failure :
    monday_webhook envC3 (some (parentEventBody (.num 1))) [] =
      (⟨200, .obj [("status", .str "success")]⟩,
       [⟨.itemWithSubitemsQuery (.num 1), none⟩]) := rfl

/-- C3 (amended): a remote response with a non-200 status makes the
originating `execute_monday_query` invocation raise `HTTPException`, and the
exception never escapes the webhook endpoint.  Which layer catches it
depends on the call site: for the two initial fetches of the subitem-creation
path it is the webhook handler itself, which answers HTTP 200 with the
error-status dict (first fetch shown); on the parent-update path the sync
function catches it and the handler answers the success dict (see the
counterexample). -/
theorem c3_amended_failure_contained (env : ApiEnv) (doc : GraphQLDoc)
    (vars : Option Json) (calls : List ApiCall) (status : Nat) (rbody : Json)
    (sid sbid pid pbid : Json)
    (hk : keyTruthy env.apiKey = true) (h200 : status ≠ 200) :
    (env.script calls.length = .response status rbody →
      execute_monday_query env doc vars calls =
        (.error (.httpExc status ("Error from Monday.com API: " ++ rbody.render)),
         calls ++ [⟨doc, vars⟩])) ∧
    (∀ (calls2 : List ApiCall) (fs : List (String × Json)) (errv : Json),
      env.script calls2.length = .response 200 (.obj fs) →
      List.lookup "errors" fs = some errv →
      ∃ e, execute_monday_query env doc vars calls2 =
        (.error e, calls2 ++ [⟨doc, vars⟩])) ∧
    (env.script 0 = .response status rbody →
     sid.truthy = true → sbid.truthy = true → pid.truthy = true → pbid.truthy = true →
     monday_webhook env (some (syncEventBody sid sbid pid pbid)) [] =
       (⟨200, webhookErrorBody env
          (.httpExc status ("Error from Monday.com API: " ++ rbody.render))⟩,
        [parentFetchCall pid])) := by
  refine ⟨?_, ?_, ?_⟩
  · intro hs
    exact execute_non200 env doc vars calls status rbody hk hs h200
  · intro calls2 fs errv hs hlook
    exact execute_errors_key_fails env doc vars calls2 fs errv hk hs hlook
  · intro hs hsid hsbid hpid hpbid
    have hex := execute_non200 env .getParentItemQuery
      (some (.obj [("itemId", pid)])) [] status rbody hk hs h200
    simp [monday_webhook, monday_webhook_try, sync_subitem_with_parent,
          sync_fetch_phase, syncEventBody, parentFetchCall, M.bind_eq, M.bind,
          M.liftE, M.pure, M.throw, pyOr, pyGet, pyGetD, pyIn, pyIndex0,
          List.lookup, Option.getD, truthy_obj, truthy_arr, truthy_null,
          truthy_str, isStrEq_str, hsid, hsbid, hpid, hpbid, hex]

theorem c3_amended_failure_contained_witness :
    keyTruthy envC3.apiKey = true ∧ (500 : Nat) ≠ 200 ∧
    envC3.script 0 = .response 500 (.str "boom") ∧
    envC3.script 1 = .response 200 (.obj [("errors",
      .arr [.obj [("message", .str "bad query")]])]) ∧
    List.lookup "errors" [("errors", Json.arr [.obj [("message", Json.str "bad query")]])]
      = some (Json.arr [.obj [("message", Json.str "bad query")]]) ∧
    (Json.num 2).truthy = true ∧ (Json.num 3).truthy = true ∧
    (Json.num 1).truthy = true ∧ (Json.num 4).truthy = true ∧
    (execute_monday_query envC3 .getParentItemQuery (some (.obj [("itemId", .num 1)])) [] =
      (.error (.httpExc 500 ("Error from Monday.com API: " ++ (Json.str "boom").render)),
       [⟨.getParentItemQuery, some (.obj [("itemId", .num 1)])⟩])) ∧
    (∃ e, execute_monday_query envC3 .getParentItemQuery (some (.obj [("itemId", .num 1)]))
        [parentFetchCall (.num 1)] =
      (.error e, [parentFetchCall (.num 1),
        ⟨.getParentItemQuery, some (.obj [("itemId", .num 1)])⟩])) ∧
    monday_webhook envC3 (some (syncEventBody (.num 2) (.num 3) (.num 1) (.num 4))) [] =
      (⟨200, webhookErrorBody envC3
         (.httpExc 500 ("Error from Monday.com API: " ++ (Json.str "boom").render))⟩,
       [parentFetchCall (.num 1)]) := by
  have h := c3_amended_failure_contained envC3 .getParentItemQuery
    (some (.obj [("itemId", .num 1)])) [] 500 (.str "boom")
    (.num 2) (.num 3) (.num 1) (.num 4) rfl (by decide)
  exact ⟨rfl, by decide, rfl, rfl, rfl, rfl, rfl, rfl, rfl, h.1 rfl,
         h.2.1 [parentFetchCall (.num 1)] _ _ rfl rfl, h.2.2 rfl rfl rfl rfl rfl⟩

/-- Concrete environment for the C4 counterexample: every remote call is
answered with HTTP 500. -/
def envC4 : ApiEnv :=
  ⟨some "key", fun _ => .response 500 (.str "boom"), 2026, "2026-10-12T00:00:00"⟩

/-- C4 counterexample: with all four ids present, the parent fetch at
src/main.py:315 runs BEFORE the `try` block, so its HTTP-500 failure
propagates out of `sync_subitem_with_parent` — the function does raise,
refuting the claim that it returns normally on every input. -/
theorem c4_counterexample_fetch_failure_raises :
    exceptIsError
      (sync_subitem_with_parent envC4
        (syncEventBody (.num 2) (.num 3) (.num 1) (.num 4)) []).1 = true := rfl

/-- C4 (amended): every failure in the extraction-and-mutation phase (the
`try` block at src/main.py:338-443) is caught, so whenever the id-extraction
and the two fetch queries complete without raising,
`sync_subitem_with_parent` returns normally; only a failure of that initial
fetch phase can propagate to the caller. -/
theorem c4_amended_post_fetch_failures_caught (env : ApiEnv) (wd : Json)
    (calls : List ApiCall) (a : Option (Json × Json × Json × Json))
    (calls2 : List ApiCall)
    (hfetch : sync_fetch_phase env wd calls = (.ok a, calls2)) :
    ∃ calls3, sync_subitem_with_parent env wd calls = (.ok (), calls3) := by
  cases a with
  | none =>
    exact ⟨calls2, by simp [sync_subitem_with_parent, M.bind_eq, M.bind, hfetch, M.pure]⟩
  | some q =>
    rcases q with ⟨sid, sbid, pr, sr⟩
    obtain ⟨s3, h3⟩ := M.tryCatchAll_pure_handler (sync_subitem_try env sid sbid pr sr) calls2
    exact ⟨s3, by simp [sync_subitem_with_parent, M.bind_eq, M.bind, hfetch, h3]⟩

/-- Concrete environment for the C4-amended witness: both fetches succeed
(HTTP 200, body without an `errors` key). -/
def envC4W : ApiEnv :=
  ⟨some "key", fun _ => .response 200 (.obj [("data", .obj [])]), 2026,
   "2026-10-12T00:00:00"⟩

theorem c4_amended_post_fetch_failures_caught_witness :
    sync_fetch_phase envC4W (syncEventBody (.num 2) (.num 3) (.num 1) (.num 4)) [] =
      (.ok (some (.num 2, .num 3, .obj [("data", .obj [])], .obj [("data", .obj [])])),
       [parentFetchCall (.num 1), subitemFetchCall (.num 2)]) ∧
    ∃ calls3,
      sync_subitem_with_parent envC4W
        (syncEventBody (.num 2) (.num 3) (.num 1) (.num 4)) [] = (.ok (), calls3) :=
  ⟨rfl,
   c4_amended_post_fetch_failures_caught envC4W
     (syncEventBody (.num 2) (.num 3) (.num 1) (.num 4)) []
     (some (.num 2, .num 3, .obj [("data", .obj [])], .obj [("data", .obj [])]))
     [parentFetchCall (.num 1), subitemFetchCall (.num 2)] rfl⟩

/-- Concrete environment for the C5 evaluation. -/
def envC5 : ApiEnv :=
  ⟨some "key", fun _ => .response 200 (.obj []), 2026, "2026-10-12T00:00:00"⟩

/-- C5: evaluating the webhook at an unparseable request body.  Line 127
raises `HTTPException(400)`, but that raise sits INSIDE the outer `try` whose
`except Exception` (line 159) also catches `HTTPException` (a subclass of
`Exception`), so the endpoint answers HTTP 200 with the error dict — not
HTTP 400 as the spec states. -/
theorem c5_bad_json_answered_with_200 :
    monday_webhook envC5 none [] =
      (⟨200, webhookErrorBody envC5
         (.httpExc 400 "Invalid JSON payload: <json parse error>")⟩, []) := rfl

/-- The webhook endpoint answers HTTP 200 for every request — parseable or
not — because its catch-all converts every exception into a plain dict that
FastAPI serves with the default status. -/
theorem monday_webhook_always_200 (env : ApiEnv) (rb : Option Json)
    (calls : List ApiCall) : (monday_webhook env rb calls).1.status = 200 := by
  unfold monday_webhook
  rcases h : monday_webhook_try env rb calls with ⟨r, s'⟩
  cases r <;> simp [h]
